import Mathlib

/-!
Verification of the resdk field-descriptor and query engine.

This file gives a shallow embedding, in Lean 4, of the change-tracking field
descriptors (`src/resdk/resources/fields.py`) and of the lazy composable query
abstraction (`src/resdk/query.py`, `src/resdk/resolwe.py`) of the resolwe-bio-py
client library, together with theorems settling the specified properties of
those components.

Conventions of the embedding:
* Python scalar values are modelled by the inductive `PyVal`; a raised Python
  exception is modelled by the non-`ok` constructors of `PyResult` or by
  explicit error sums.
* Methods become Lean functions taking the object state explicitly; state
  mutation becomes returning an updated state.
* `None` checks (`x is None`) become `Option` matches; Python truthiness of an
  optional integer (`if self._offset or self._limit`) is modelled by
  `truthyOptInt`.
-/

set_option autoImplicit false

namespace ResdkSpec

/-- A Python scalar value as it appears in JSON payloads and attribute reads. -/
inductive PyVal where
  | pyNone
  | pyInt (n : Int)
  | pyStr (s : String)
  | pyBool (b : Bool)
  deriving DecidableEq, Repr

/-- The outcome of running a piece of Python code that may raise: either a
value, or a `TypeError` (for example a call with too few arguments), or an
`AttributeError` (attribute access on an object that lacks it). -/
inductive PyResult (α : Type) where
  | ok (a : α)
  | typeError
  | attributeError
  deriving DecidableEq, Repr

/-- fields.py `DataSource`: the origin of the data. -/
inductive DataSource where
  | USER
  | SERVER
  deriving DecidableEq, Repr

/-- fields.py `FieldAccessType`. -/
inductive FieldAccessType where
  | READ_ONLY
  | UPDATE_PROTECTED
  | WRITABLE
  deriving DecidableEq, Repr

/-- fields.py `FieldStatus`. -/
inductive FieldStatus where
  | UNSET
  | SET
  | LAZY
  deriving DecidableEq, Repr

/-- The native Python types a field may accept (`accepted_types`). -/
inductive PyType where
  | tInt
  | tStr
  | tDict
  | tFloat
  | tBool
  | tDatetime
  deriving DecidableEq, Repr

/-- A value passed to `BaseField.__set__`.  `vLazy` stands for a callable
(lazy loader); `vQuery` for a `ResolweQuery` instance; both are the only
non-JSON shapes the setter distinguishes.  List values carry scalar items,
which is all the checks ever inspect. -/
inductive SetVal where
  | vNone
  | vInt (n : Int)
  | vStr (s : String)
  | vBool (b : Bool)
  | vDict (entries : List (String × PyVal))
  | vList (xs : List PyVal)
  | vLazy
  | vQuery
  deriving DecidableEq, Repr

/-- Embed a scalar into the setter value universe (a list element seen as a
value of its own during the per-item type check). -/
def SetVal.ofPyVal : PyVal → SetVal
  | PyVal.pyNone => SetVal.vNone
  | PyVal.pyInt n => SetVal.vInt n
  | PyVal.pyStr s => SetVal.vStr s
  | PyVal.pyBool b => SetVal.vBool b

/-- Python `isinstance` against the accepted type set of a field. -/
def isinstanceOf (v : SetVal) (t : PyType) : Bool :=
  match v, t with
  | SetVal.vInt _, PyType.tInt => true
  | SetVal.vStr _, PyType.tStr => true
  | SetVal.vDict _, PyType.tDict => true
  | SetVal.vBool _, PyType.tBool => true
  | _, _ => false

def SetVal.isList : SetVal → Bool
  | SetVal.vList _ => true
  | _ => false

/-- The constructor arguments of `BaseField` that govern the checks. -/
structure FieldCfg where
  access_type : FieldAccessType
  -- source name: assert_exists (that spelling is a reserved command here)
  assertExists : Bool
  allow_null : Bool
  many : Bool
  accepted_types : Option (List PyType)
  deriving DecidableEq, Repr

/-- The slice of the owning resource instance the field machinery reads:
`instance.id` and `instance._initial_data_source` (the latter read through
`getattr` with default `DataSource.USER`). -/
structure InstanceCtx where
  id : Option Int
  initial_data_source : DataSource
  deriving DecidableEq, Repr

/-- The per-instance state of one field: `_<name>_status`, `_<name>` and
`_<name>_original`. -/
structure FieldState where
  status : FieldStatus
  value : SetVal
  original : SetVal
  deriving DecidableEq, Repr

/-- The errors raised by the checks in `BaseField._checks_before_set`,
in source order. -/
inductive SetError where
  | mustBeSaved
  | mustBeList
  | readOnly
  | updateProtected
  | nullNotAllowed
  | wrongType
  deriving DecidableEq, Repr

/-- fields.py `BaseField._check_exists` (lines 83-92). -/
def BaseField_check_exists (cfg : FieldCfg) (inst : InstanceCtx) : Option SetError :=
  if cfg.assertExists ∧ inst.id = Option.none then some SetError.mustBeSaved
  else Option.none

/-- fields.py `BaseField._check_many` (lines 115-129): when `many` is set a
non-`None` value must be a list or a `ResolweQuery`. -/
def BaseField_check_many (cfg : FieldCfg) (v : SetVal) : Option SetError :=
  if cfg.many ∧ v ≠ SetVal.vNone ∧ ¬(v.isList = true) ∧ v ≠ SetVal.vQuery then
    some SetError.mustBeList
  else Option.none

/-- fields.py `BaseField._check_writeable` (lines 94-113): the check is skipped
entirely when the instance was constructed from a server payload. -/
def BaseField_check_writeable (cfg : FieldCfg) (inst : InstanceCtx) : Option SetError :=
  let created := inst.id ≠ Option.none
  let skip := inst.initial_data_source = DataSource.SERVER
  if ¬skip then
    if cfg.access_type = FieldAccessType.READ_ONLY then some SetError.readOnly
    else if cfg.access_type = FieldAccessType.UPDATE_PROTECTED ∧ created then
      some SetError.updateProtected
    else Option.none
  else Option.none

/-- fields.py `BaseField._check_allow_null` (lines 131-137). -/
def BaseField_check_allow_null (cfg : FieldCfg) (v : SetVal) : Option SetError :=
  if ¬cfg.allow_null ∧ v = SetVal.vNone then some SetError.nullNotAllowed
  else Option.none

/-- fields.py `BaseField._check_types` (lines 143-157): every item (the value
itself, or each element for a `many` field) must be an instance of one of the
accepted types. -/
def BaseField_check_types (cfg : FieldCfg) (v : SetVal) : Option SetError :=
  match cfg.accepted_types with
  | Option.none => Option.none
  | some types =>
    if v = SetVal.vNone then Option.none
    else
      let items :=
        if cfg.many then
          (match v with
           | SetVal.vList xs => xs.map SetVal.ofPyVal
           | other => [other])
        else [v]
      if items.all (fun item => types.any (fun t => isinstanceOf item t)) then Option.none
      else some SetError.wrongType

/-- fields.py `BaseField._checks_before_set` (lines 159-165), in source order:
exists, many, writeable, allow_null, types; the first failing check raises. -/
def BaseField_checks_before_set (cfg : FieldCfg) (inst : InstanceCtx) (v : SetVal) :
    Option SetError :=
  match BaseField_check_exists cfg inst with
  | some e => some e
  | Option.none =>
    match BaseField_check_many cfg v with
    | some e => some e
    | Option.none =>
      match BaseField_check_writeable cfg inst with
      | some e => some e
      | Option.none =>
        match BaseField_check_allow_null cfg v with
        | some e => some e
        | Option.none => BaseField_check_types cfg v

/-- fields.py `BaseField._is_lazy` (lines 167-171): only a callable is lazy. -/
def BaseField_is_lazy (v : SetVal) : Bool :=
  decide (v = SetVal.vLazy)

/-- fields.py `BaseField.__set__` (lines 289-294): run the checks; on failure
the state is returned untouched together with the raised error, otherwise the
value is stored and the status becomes `LAZY` for a callable and `SET`
otherwise.  The `original` snapshot is never touched by the setter. -/
def BaseField_set (cfg : FieldCfg) (inst : InstanceCtx) (st : FieldState) (v : SetVal) :
    FieldState × Option SetError :=
  match BaseField_checks_before_set cfg inst v with
  | some e => (st, some e)
  | Option.none =>
    ({ st with
        value := v
        status := if BaseField_is_lazy v then FieldStatus.LAZY else FieldStatus.SET },
      Option.none)

/-- fields.py `BaseField.changed` (lines 186-210), with the subclass-specific
`self._compare` dispatch made explicit as the `compare` argument: unset and
lazy fields are never changed; on a not-yet-created instance every writable or
update-protected field counts as changed; otherwise the original server
snapshot is compared against the current value. -/
def BaseField_changed {α β : Type} (compare : α → β → PyResult Bool)
    (access : FieldAccessType) (status : FieldStatus) (id_isSet : Bool)
    (original : α) (current : β) : PyResult Bool :=
  let creating := ¬id_isSet
  let lazy := status = FieldStatus.LAZY
  if status = FieldStatus.UNSET ∨ lazy then PyResult.ok false
  else if creating ∧ (access = FieldAccessType.WRITABLE ∨ access = FieldAccessType.UPDATE_PROTECTED) then
    PyResult.ok true
  else compare original current

/-- fields.py `BaseField._compare` (lines 212-214): plain inequality of the
original JSON value and the current Python value. -/
def BaseField_compare {α : Type} [DecidableEq α] (original_json current_python : α) :
    PyResult Bool :=
  PyResult.ok (decide (original_json ≠ current_python))

/-! ### DateTimeField -/

/-- A `datetime.datetime` value (naive, to the second, which is what the basic
ISO strings of the payloads carry). -/
structure PyDatetime where
  year : Nat
  month : Nat
  day : Nat
  hour : Nat
  minute : Nat
  second : Nat
  deriving DecidableEq, Repr

/-- Split a character list on a separator; the analogue of `str.split(sep)`. -/
def splitOnChar (sep : Char) : List Char → List (List Char)
  | [] => [[]]
  | c :: rest =>
    let r := splitOnChar sep rest
    if c = sep then [] :: r
    else
      match r with
      | [] => [[c]]
      | g :: gs => (c :: g) :: gs

/-- The numeric value of a decimal digit character, if it is one. -/
def charDigit (c : Char) : Option Nat :=
  if 48 ≤ c.toNat ∧ c.toNat ≤ 57 then some (c.toNat - 48) else Option.none

/-- Parse a non-empty all-digit character list as a natural number. -/
def parseNatChars (cs : List Char) : Option Nat :=
  match cs with
  | [] => Option.none
  | _ =>
    cs.foldl
      (fun acc c =>
        match acc, charDigit c with
        | some a, some d => some (a * 10 + d)
        | _, _ => Option.none)
      (some 0)

/-- Python `datetime.fromisoformat` on the basic `YYYY-MM-DDTHH:MM:SS` shape;
`Option.none` models the `ValueError` raised on a malformed string. -/
def datetime_fromisoformat (s : String) : Option PyDatetime :=
  match splitOnChar 'T' s.data with
  | [d, t] =>
    (match splitOnChar '-' d, splitOnChar ':' t with
     | [y, mo, da], [h, mi, se] =>
       (match parseNatChars y, parseNatChars mo, parseNatChars da,
              parseNatChars h, parseNatChars mi, parseNatChars se with
        | some a, some b, some c, some d2, some e, some f =>
          some { year := a, month := b, day := c, hour := d2, minute := e, second := f }
        | _, _, _, _, _, _ => Option.none)
     | _, _ => Option.none)
  | _ => Option.none

/-- Number of positional parameters, besides `self`, that `BaseField.to_python`
declares (fields.py line 246: `def to_python(self, value, instance)`), neither
of them with a default. -/
def to_python_required_params : Nat := 2

/-- Number of positional arguments `DateTimeField._compare` supplies when it
invokes `self.to_python(original_json)` (fields.py line 333). -/
def DateTimeField_compare_supplied_args : Nat := 1

/-- fields.py `DateTimeField._compare` (lines 331-333).  Python raises a
`TypeError` when a call supplies fewer positional arguments than the callee's
required parameters, before the callee's body runs; otherwise the body would
parse the original ISO string and compare the parsed instant with the current
native value by `!=`. -/
def DateTimeField_compare (original_json : String) (current_python : PyDatetime) :
    PyResult Bool :=
  if DateTimeField_compare_supplied_args < to_python_required_params then
    PyResult.typeError
  else
    match datetime_fromisoformat original_json with
    | some parsed => PyResult.ok (decide (parsed ≠ current_python))
    | Option.none => PyResult.typeError

/-- The composition `DateTimeField.changed`: `BaseField.changed` with the comparison dispatched
to `DateTimeField._compare`. -/
def DateTimeField_changed (access : FieldAccessType) (status : FieldStatus)
    (id_isSet : Bool) (original_json : String) (current : PyDatetime) : PyResult Bool :=
  BaseField_changed DateTimeField_compare access status id_isSet original_json current

/-! ### DictResourceField -/

/-- The identity slice of a related resource that `DictResourceField` reads
through `getattr(entry, self._property_name)`: its `id` and `slug` attributes
(`PyVal.pyNone` when not yet assigned). -/
structure ResRef where
  id : PyVal
  slug : PyVal
  deriving DecidableEq, Repr

/-- Python `dict.get(key)`: the stored value, or `None` when absent. -/
def jsonDictGet (d : List (String × PyVal)) (k : String) : PyVal :=
  match d.find? (fun kv => kv.1 = k) with
  | some kv => kv.2
  | Option.none => PyVal.pyNone

/-- Python `getattr(entry, property_name)` on a related resource; the configured
property of a `DictResourceField` is `id` (the default) or `slug`. -/
def resGetattr (r : ResRef) (property_name : String) : PyVal :=
  if property_name = "id" then r.id
  else if property_name = "slug" then r.slug
  else PyVal.pyNone

/-- fields.py `DictResourceField._compare` (lines 434-445), single-valued case:
take the configured property out of the original JSON dictionary and out of the
current resource, and return the result of `json_id == python_id` exactly as
the source does. -/
def DictResourceField_compare_single (property_name : String)
    (original_json : List (String × PyVal)) (current_python : ResRef) : Bool :=
  let json_id := jsonDictGet original_json property_name
  let python_id := resGetattr current_python property_name
  decide (json_id = python_id)

/-- fields.py `DictResourceField._compare` (lines 434-445), many-valued case:
elementwise property extraction on both sides, then `json_id == python_id`. -/
def DictResourceField_compare_many (property_name : String)
    (original_json : List (List (String × PyVal))) (current_python : List ResRef) : Bool :=
  let json_id := original_json.map (fun entry => jsonDictGet entry property_name)
  let python_id := current_python.map (fun entry => resGetattr entry property_name)
  decide (json_id = python_id)

/-- The composition `DictResourceField.changed` for a single-valued relation field:
`BaseField.changed` with the comparison dispatched to
`DictResourceField._compare`. -/
def DictResourceField_changed (property_name : String) (access : FieldAccessType)
    (status : FieldStatus) (id_isSet : Bool)
    (original_json : List (String × PyVal)) (current : ResRef) : PyResult Bool :=
  BaseField_changed
    (fun o c => PyResult.ok (DictResourceField_compare_single property_name o c))
    access status id_isSet original_json current

/-! ### Theorems about the field descriptors -/

/-- C2: for every field and owning entity, `changed` returns false whenever the
status is UNSET or LAZY; it returns true for a writable or update-protected
field with status SET on an entity whose id is not yet set; otherwise it
returns the result of comparing the original server snapshot against the
current value. -/
theorem C2_changed_algorithm {α β : Type} (compare : α → β → PyResult Bool)
    (access : FieldAccessType) (status : FieldStatus) (id_isSet : Bool)
    (original : α) (current : β) :
    ((status = FieldStatus.UNSET ∨ status = FieldStatus.LAZY) →
      BaseField_changed compare access status id_isSet original current = PyResult.ok false)
    ∧ (status = FieldStatus.SET → id_isSet = false →
        (access = FieldAccessType.WRITABLE ∨ access = FieldAccessType.UPDATE_PROTECTED) →
        BaseField_changed compare access status id_isSet original current = PyResult.ok true)
    ∧ (status = FieldStatus.SET →
        (id_isSet = true ∨ access = FieldAccessType.READ_ONLY) →
        BaseField_changed compare access status id_isSet original current =
          compare original current) := by
  refine ⟨?_, ?_, ?_⟩
  · intro h
    rcases h with h1 | h1 <;> subst h1 <;> simp [BaseField_changed]
  · intro hs hid hacc
    subst hs; subst hid
    rcases hacc with h1 | h1 <;> subst h1 <;> simp [BaseField_changed]
  · intro hs hcase
    subst hs
    rcases hcase with h1 | h1
    · subst h1; simp [BaseField_changed]
    · subst h1; cases id_isSet <;> simp [BaseField_changed]

/-- Witness for `C2_changed_algorithm` at concrete inputs: a lazy writable
field is unchanged, a set writable field on an unsaved entity is changed, and a
set read-only field on a saved entity defers to the comparison. -/
theorem C2_changed_algorithm_witness :
    BaseField_changed (fun (o c : Int) => BaseField_compare o c)
      FieldAccessType.WRITABLE FieldStatus.LAZY true 0 1 = PyResult.ok false
    ∧ BaseField_changed (fun (o c : Int) => BaseField_compare o c)
      FieldAccessType.WRITABLE FieldStatus.SET false 0 1 = PyResult.ok true
    ∧ BaseField_changed (fun (o c : Int) => BaseField_compare o c)
      FieldAccessType.READ_ONLY FieldStatus.SET true 0 1 = BaseField_compare 0 1 :=
  ⟨(C2_changed_algorithm _ _ _ _ 0 1).1 (Or.inr rfl),
   (C2_changed_algorithm _ _ _ _ 0 1).2.1 rfl rfl (Or.inl rfl),
   (C2_changed_algorithm _ _ _ _ 0 1).2.2 rfl (Or.inl rfl)⟩

/-- C1: the claim says a relation field with id set and status SET is changed
exactly when the recorded identity differs from the current one; the source
(`DictResourceField._compare`) returns `json_id == python_id`, so an untouched
relation (equal identities, here id 1 on both sides) reports changed and a
re-pointed relation (original id 2, current id 1) reports unchanged. -/
theorem C1_relation_changed_identity_inverted :
    DictResourceField_changed "id" FieldAccessType.WRITABLE FieldStatus.SET true
      [("id", PyVal.pyInt 1)] { id := PyVal.pyInt 1, slug := PyVal.pyStr "s" }
      = PyResult.ok true
    ∧ DictResourceField_changed "id" FieldAccessType.WRITABLE FieldStatus.SET true
      [("id", PyVal.pyInt 2)] { id := PyVal.pyInt 1, slug := PyVal.pyStr "s" }
      = PyResult.ok false := by
  decide

/-- C8: on a server-fetched entity whose datetime field still holds the parse
of the original ISO string, the claim expects `changed()` to be false; the
source's `DateTimeField._compare` invokes `self.to_python(original_json)` with
one argument while `to_python` requires two, so the call raises `TypeError`
instead of returning false. -/
theorem C8_datetime_changed_raises :
    datetime_fromisoformat "2024-01-05T12:30:00"
      = some { year := 2024, month := 1, day := 5, hour := 12, minute := 30, second := 0 }
    ∧ DateTimeField_changed FieldAccessType.READ_ONLY FieldStatus.SET true
        "2024-01-05T12:30:00"
        { year := 2024, month := 1, day := 5, hour := 12, minute := 30, second := 0 }
      = PyResult.typeError
    ∧ PyResult.typeError ≠ PyResult.ok false := by
  refine ⟨by decide, by decide, by decide⟩

/-- A read-only, many-valued field with no other constraints. -/
def readOnlyManyCfg : FieldCfg :=
  { access_type := FieldAccessType.READ_ONLY, assertExists := false,
    allow_null := true, many := true, accepted_types := Option.none }

/-- A read-only scalar field with no other constraints. -/
def readOnlyCfg : FieldCfg :=
  { access_type := FieldAccessType.READ_ONLY, assertExists := false,
    allow_null := true, many := false, accepted_types := Option.none }

/-- A saved entity built by the caller (origin USER). -/
def savedUserInstance : InstanceCtx :=
  { id := some 1, initial_data_source := DataSource.USER }

/-- An arbitrary field state used as the pre-set state in the examples. -/
def someFieldState : FieldState :=
  { status := FieldStatus.UNSET, value := SetVal.vNone, original := SetVal.vNone }

/-- C7 counterexample: setting a read-only many-valued field to the non-list
value 5 raises the cardinality error "must be list", not the claimed "field is
read only" error, because `_check_many` runs before `_check_writeable`. -/
theorem C7_counterexample :
    (BaseField_set readOnlyManyCfg savedUserInstance someFieldState (SetVal.vInt 5)).2
      = some SetError.mustBeList
    ∧ some SetError.mustBeList ≠ some SetError.readOnly := by
  refine ⟨by decide, by decide⟩

/-- C7 amended: an external (USER-origin) set of a read-only field always fails
and leaves the stored value and status untouched; the raised error is "field is
read only" whenever the existence assertion and the cardinality check pass
(those two run first and raise their own errors). -/
theorem C7_read_only_set_rejected (cfg : FieldCfg) (inst : InstanceCtx)
    (st : FieldState) (v : SetVal)
    (hacc : cfg.access_type = FieldAccessType.READ_ONLY)
    (hsrc : inst.initial_data_source = DataSource.USER) :
    (∃ e, BaseField_set cfg inst st v = (st, some e))
    ∧ (BaseField_check_exists cfg inst = Option.none →
       BaseField_check_many cfg v = Option.none →
       BaseField_set cfg inst st v = (st, some SetError.readOnly)) := by
  have hw : BaseField_check_writeable cfg inst = some SetError.readOnly := by
    unfold BaseField_check_writeable
    rw [hacc, hsrc]
    simp
  constructor
  · cases he : BaseField_check_exists cfg inst with
    | some e => exact ⟨e, by simp [BaseField_set, BaseField_checks_before_set, he]⟩
    | none =>
      cases hm : BaseField_check_many cfg v with
      | some e => exact ⟨e, by simp [BaseField_set, BaseField_checks_before_set, he, hm]⟩
      | none =>
        exact ⟨SetError.readOnly,
          by simp [BaseField_set, BaseField_checks_before_set, he, hm, hw]⟩
  · intro he hm
    simp [BaseField_set, BaseField_checks_before_set, he, hm, hw]

/-- Witness for `C7_read_only_set_rejected`: a concrete read-only scalar field
on a saved USER-origin entity rejects the value 5 with the read-only error and
keeps its state. -/
theorem C7_read_only_set_rejected_witness :
    BaseField_set readOnlyCfg savedUserInstance someFieldState (SetVal.vInt 5)
      = (someFieldState, some SetError.readOnly) :=
  (C7_read_only_set_rejected readOnlyCfg savedUserInstance someFieldState
    (SetVal.vInt 5) rfl rfl).2 (by decide) (by decide)

/-! ## Query engine (`src/resdk/query.py`) -/

/-- Keyword criteria / filter dictionaries: ordered key-value pairs with
Python dict semantics (assignment replaces in place, a new key appends). -/
abbrev KwDict := List (String × PyVal)

/-- Python `key in d`. -/
def dictMem (k : String) (d : KwDict) : Bool :=
  d.any (fun kv => kv.1 = k)

/-- Python `d.get(key)` as an option (`d[key]` when present). -/
def dictGet (d : KwDict) (k : String) : Option PyVal :=
  (d.find? (fun kv => kv.1 = k)).map (fun kv => kv.2)

/-- Python `d[key] = v`: replace in place when the key exists, append
otherwise. -/
def dictSet (d : KwDict) (k : String) (v : PyVal) : KwDict :=
  if dictMem k d then d.map (fun kv => if kv.1 = k then (k, v) else kv)
  else d ++ [(k, v)]

/-- The errors `get` raises while validating its arguments. -/
inductive GetErr where
  | tooManyPositional
  | mixedArgs
  deriving DecidableEq, Repr

/-- A positional argument to `get`: interpreted as an id filter when an int and
as a slug-field filter otherwise (query.py line 306). -/
inductive PosArg where
  | pInt (n : Int)
  | pStr (s : String)
  deriving DecidableEq, Repr

/-- The defaulting step of `get` (query.py lines 308-312): only when the slug
field is among the criteria, version-carrying resources (Process and
DescriptorSchema) get `ordering` defaulted to `-version` and the limit defaults
to 1. -/
def getApplyDefaults (slug_field : String) (versioned : Bool) (kwargs : KwDict) : KwDict :=
  if dictMem slug_field kwargs then
    let k1 :=
      if versioned then
        dictSet kwargs "ordering" ((dictGet kwargs "ordering").getD (PyVal.pyStr "-version"))
      else kwargs
    dictSet k1 "limit" ((dictGet k1 "limit").getD (PyVal.pyInt 1))
  else kwargs

/-- query.py `ResolweQuery.get`, the criteria-building part (lines 297-315):
at most one positional argument, not combined with keywords; the positional
argument becomes an id or slug filter; then the slug-conditional defaults.  The
returned dictionary is what `_add_filter` receives on the cloned query before
the single list request. -/
def ResolweQuery_get_kwargs (slug_field : String) (versioned : Bool)
    (args : List PosArg) (kwargs : KwDict) : Except GetErr KwDict :=
  match args with
  | [] => Except.ok (getApplyDefaults slug_field versioned kwargs)
  | [a] =>
    if kwargs ≠ [] then Except.error GetErr.mixedArgs
    else
      let kw : KwDict :=
        match a with
        | PosArg.pInt n => [("id", PyVal.pyInt n)]
        | PosArg.pStr s => [(slug_field, PyVal.pyStr s)]
      Except.ok (getApplyDefaults slug_field versioned kw)
  | _ => Except.error GetErr.tooManyPositional

/-- The criteria `get` builds, as a total function (empty on a validation
error), for stating lookups on the result. -/
def getKwResult (slug_field : String) (versioned : Bool)
    (args : List PosArg) (kwargs : KwDict) : KwDict :=
  match ResolweQuery_get_kwargs slug_field versioned args kwargs with
  | Except.ok r => r
  | Except.error _ => []

/-! ### Pagination, cache, count and indexing -/

/-- The pagination and cache state of one `ResolweQuery`: `_limit`, `_offset`,
`_cache` and `_count`.  The accumulated filter map is held fixed here; the
server's matching collection for those filters appears as the `db` argument of
the operations. -/
structure QueryS (Item : Type) where
  limit : Option Int
  offset : Option Int
  cache : Option (List Item)
  countCache : Option Int
  deriving DecidableEq, Repr

/-- Python truthiness of an optional integer (`if self._offset or
self._limit`): `None` and `0` are falsy. -/
def truthyOptInt : Option Int → Bool
  | Option.none => false
  | some n => decide (n ≠ 0)

/-- query.py `ResolweQuery._clone` (lines 165-171), pagination part: a fresh
object with the same limit and offset and the cache and count unset. -/
def QueryS.clone {Item : Type} (q : QueryS Item) : QueryS Item :=
  { limit := q.limit, offset := q.offset, cache := Option.none, countCache := Option.none }

/-- The page the server returns for a request carrying the given limit and
offset, out of the `db` collection matching the query's filters. -/
def pageOf {Item : Type} (db : List Item) (limit offset : Option Int) : List Item :=
  let dropped :=
    match offset with
    | Option.none => db
    | some o => db.drop o.toNat
  match limit with
  | Option.none => dropped
  | some l => dropped.take l.toNat

/-- query.py `ResolweQuery._fetch` (lines 233-257) against a paginated server:
a no-op on a populated cache; otherwise one request is issued, the envelope's
`count` (the total size of the matching collection) is recorded, and — the
bare-list compatibility step of line 254 — when no limit is set `_count` is
overwritten with the length of the received results.  Returns the updated
query and the number of requests issued. -/
def ResolweQuery_fetch {Item : Type} (db : List Item) (q : QueryS Item) :
    QueryS Item × Nat :=
  match q.cache with
  | some _ => (q, 0)
  | Option.none =>
    let results := pageOf db q.limit q.offset
    let c1 : Option Int := some (Int.ofNat db.length)
    let c2 : Option Int :=
      if q.limit = Option.none then some (Int.ofNat results.length) else c1
    ({ q with cache := some results, countCache := c2 }, 1)

/-- query.py `ResolweQuery.count` (lines 264-277): when `_count` is unknown a
probe clone with offset 0 and limit 1 is fetched to learn the server total;
without a limit that total is returned unchanged; with a limit the result is
`max(0, min(limit, total - offset))`.  `Option.none` models the `TypeError` of
`total - None` when a limit is present without an offset.  Returns the value
and the number of requests issued. -/
def ResolweQuery_count {Item : Type} (db : List Item) (q : QueryS Item) :
    Option Int × Nat :=
  let probe :=
    match q.countCache with
    | some c => ((some c : Option Int), 0)
    | Option.none =>
      let cq := { q.clone with offset := (some 0 : Option Int), limit := (some 1 : Option Int) }
      let fr := ResolweQuery_fetch db cq
      (fr.1.countCache, fr.2)
  match probe.1 with
  | Option.none => (Option.none, probe.2)
  | some c =>
    match q.limit with
    | Option.none => (some c, probe.2)
    | some l =>
      match q.offset with
      | Option.none => (Option.none, probe.2)
      | some o => (some (max 0 (min l (c - o))), probe.2)

/-- The errors of `__getitem__`, in the order the source raises them. -/
inductive QueryErr where
  | negativeIndex
  | stepNotSupported
  | alreadySliced
  | indexOutOfRange
  deriving DecidableEq, Repr

/-- The argument of `__getitem__`: a plain index or a slice. -/
inductive PyIndex where
  | idx (i : Int)
  | slice (start stop step : Option Int)
  deriving DecidableEq, Repr

/-- The outcome of `__getitem__`: an error, a single resource, a list answered
from the cache, or a new unexecuted query (the lazy slice). -/
inductive GetItemOut (Item : Type) where
  | err (e : QueryErr)
  | one (x : Item)
  | several (xs : List Item)
  | query (q : QueryS Item)
  deriving DecidableEq, Repr

/-- Python `lst[i]` for a non-negative index (negative ones are rejected
before the cache is consulted). -/
def pyListIndex {Item : Type} (xs : List Item) (i : Int) : Option Item :=
  xs.get? i.toNat

/-- Python `lst[a:b]` for non-negative bounds. -/
def pyListSlice {Item : Type} (xs : List Item) (start stop : Option Int) : List Item :=
  let a := (start.getD 0).toNat
  let b := ((stop.getD (Int.ofNat xs.length))).toNat
  (xs.take b).drop a

/-- query.py `ResolweQuery.__getitem__` (lines 108-148) against a server
holding `db` for the query's filters, in source order: negativity and slice
step validation; a populated cache answers directly; otherwise a slice either
rejects an already limited or offset query (Python truthiness) or returns a
new lazy query with `offset = start` and `limit = stop - start`; a plain index
clones with `offset = prior offset + i` and `limit = 1`, executes, and raises
on an empty page.  Returns the outcome and the number of requests issued. -/
def ResolweQuery_getitem {Item : Type} (db : List Item) (q : QueryS Item)
    (index : PyIndex) : GetItemOut Item × Nat :=
  let negative :=
    match index with
    | PyIndex.idx i => decide (i < 0)
    | PyIndex.slice st sp _ =>
      (match st with | some a => decide (a < 0) | Option.none => false)
      || (match sp with | some b => decide (b < 0) | Option.none => false)
  let stepGiven :=
    match index with
    | PyIndex.slice _ _ (some _) => true
    | _ => false
  if negative then (GetItemOut.err QueryErr.negativeIndex, 0)
  else if stepGiven then (GetItemOut.err QueryErr.stepNotSupported, 0)
  else
    match q.cache with
    | some c =>
      (match index with
       | PyIndex.idx i =>
         (match pyListIndex c i with
          | some x => (GetItemOut.one x, 0)
          | Option.none => (GetItemOut.err QueryErr.indexOutOfRange, 0))
       | PyIndex.slice st sp _ => (GetItemOut.several (pyListSlice c st sp), 0))
    | Option.none =>
      let new_query := q.clone
      match index with
      | PyIndex.slice st sp _ =>
        if truthyOptInt q.offset || truthyOptInt q.limit then
          (GetItemOut.err QueryErr.alreadySliced, 0)
        else
          let start := st.getD 0
          let stop := sp.getD 1000000
          (GetItemOut.query
            { new_query with offset := some start, limit := some (stop - start) }, 0)
      | PyIndex.idx i =>
        let nq :=
          { new_query with
              offset := some (if truthyOptInt q.offset then q.offset.getD 0 + i else i),
              limit := (some 1 : Option Int) }
        let fr := ResolweQuery_fetch db nq
        match fr.1.cache with
        | some (x :: _) => (GetItemOut.one x, fr.2)
        | _ => (GetItemOut.err QueryErr.indexOutOfRange, fr.2)

/-! ### Slug-field propagation (`_clone`, resolwe.py `_initialize_queries`) -/

/-- The identification state of one `ResolweQuery`: its designated slug field
and its accumulated filter map and pagination. -/
structure QueryC where
  slug_field : String
  filters : KwDict
  limit : Option Int
  offset : Option Int
  deriving DecidableEq, Repr

/-- query.py `ResolweQuery.__init__` (lines 90-102): the `slug_field` parameter
records the per-type identity filter; the filter map starts empty. -/
def ResolweQuery_init (slug_field : String) : QueryC :=
  { slug_field := slug_field, filters := [], limit := Option.none, offset := Option.none }

/-- The default of the constructor's `slug_field` parameter (query.py
line 91). -/
def slug_field_default : String := "slug"

/-- query.py `ResolweQuery._clone` (lines 165-171): the clone is built by
`self.__class__(self.resolwe, self.resource)` — the `slug_field` argument is
not passed, so the constructor default applies — and then receives a deep copy
of the filters and the limit and offset. -/
def ResolweQuery_clone (q : QueryC) : QueryC :=
  { ResolweQuery_init slug_field_default with
      filters := q.filters, limit := q.limit, offset := q.offset }

/-- query.py `ResolweQuery.filter` (lines 333-337) at the level of the filter
map: clone, then merge the criteria.  (The server-side renaming step of
`_add_filter` consults the resource field registry and is the identity for the
plain keys used here.) -/
def ResolweQuery_filter (q : QueryC) (criteria : KwDict) : QueryC :=
  let nq := ResolweQuery_clone q
  { nq with filters := nq.filters ++ criteria }

/-- query.py `ResolweQuery.all` (lines 357-363): a plain clone. -/
def ResolweQuery_all (q : QueryC) : QueryC :=
  ResolweQuery_clone q

/-- The user endpoint query as resolwe.py builds it (lines 163-170):
`slug_field_mapping` designates `username` as the user type's slug field. -/
def userQuery : QueryC :=
  ResolweQuery_init "username"

/-! ### Dictionary lemmas -/

theorem dictGet_none_of_not_mem (d : KwDict) (k : String) (h : dictMem k d = false) :
    dictGet d k = Option.none := by
  induction d with
  | nil => rfl
  | cons kv tl ih =>
    simp only [dictMem, List.any_cons, Bool.or_eq_false_iff,
      decide_eq_false_iff_not] at h
    obtain ⟨h1, h2⟩ := h
    simp only [dictGet, List.find?_cons, decide_eq_false h1]
    exact ih h2

theorem dictGet_append_single (d : KwDict) (k : String) (v : PyVal)
    (h : dictMem k d = false) :
    dictGet (d ++ [(k, v)]) k = some v := by
  induction d with
  | nil => simp [dictGet, List.find?]
  | cons kv tl ih =>
    simp only [dictMem, List.any_cons, Bool.or_eq_false_iff,
      decide_eq_false_iff_not] at h
    obtain ⟨h1, h2⟩ := h
    simp only [List.cons_append, dictGet, List.find?_cons, decide_eq_false h1]
    exact ih h2

theorem dictGet_map_set (d : KwDict) (k : String) (v : PyVal)
    (h : dictMem k d = true) :
    dictGet (d.map (fun kv => if kv.1 = k then (k, v) else kv)) k = some v := by
  induction d with
  | nil => simp [dictMem] at h
  | cons kv tl ih =>
    by_cases hk : kv.1 = k
    · simp [dictGet, List.find?, hk]
    · simp only [dictMem, List.any_cons, Bool.or_eq_true_iff,
        decide_eq_true_eq] at h
      rcases h with h1 | h2
      · exact absurd h1 hk
      · simp only [List.map_cons, if_neg hk, dictGet, List.find?_cons,
          decide_eq_false hk]
        exact ih h2

theorem dictGet_dictSet_self (d : KwDict) (k : String) (v : PyVal) :
    dictGet (dictSet d k v) k = some v := by
  unfold dictSet
  by_cases h : dictMem k d = true
  · rw [if_pos h]
    exact dictGet_map_set d k v h
  · rw [if_neg h]
    exact dictGet_append_single d k v (Bool.eq_false_iff.mpr h)

theorem dictGet_cons_ne (kv : String × PyVal) (tl : KwDict) (k2 : String)
    (h : ¬kv.1 = k2) : dictGet (kv :: tl) k2 = dictGet tl k2 := by
  simp only [dictGet, List.find?_cons, decide_eq_false h]

theorem dictGet_cons_eq (kv : String × PyVal) (tl : KwDict) (k2 : String)
    (h : kv.1 = k2) : dictGet (kv :: tl) k2 = some kv.2 := by
  simp only [dictGet, List.find?_cons, decide_eq_true h]
  rfl

theorem dictGet_map_set_ne (d : KwDict) (k k2 : String) (v : PyVal)
    (h : k2 ≠ k) :
    dictGet (d.map (fun kv => if kv.1 = k then (k, v) else kv)) k2 = dictGet d k2 := by
  induction d with
  | nil => rfl
  | cons kv tl ih =>
    by_cases hk : kv.1 = k
    · have hne2 : ¬(k = k2) := fun he => h he.symm
      have hk2 : ¬(kv.1 = k2) := by rw [hk]; exact hne2
      rw [List.map_cons, if_pos hk, dictGet_cons_ne (k, v) _ k2 hne2,
        dictGet_cons_ne kv tl k2 hk2]
      exact ih
    · rw [List.map_cons, if_neg hk]
      by_cases hk2 : kv.1 = k2
      · rw [dictGet_cons_eq kv _ k2 hk2, dictGet_cons_eq kv tl k2 hk2]
      · rw [dictGet_cons_ne kv _ k2 hk2, dictGet_cons_ne kv tl k2 hk2]
        exact ih

theorem dictGet_append_single_ne (d : KwDict) (k k2 : String) (v : PyVal)
    (h : k2 ≠ k) :
    dictGet (d ++ [(k, v)]) k2 = dictGet d k2 := by
  induction d with
  | nil =>
    have hne2 : ¬(k = k2) := fun he => h he.symm
    rw [List.nil_append, dictGet_cons_ne (k, v) [] k2 hne2]
  | cons kv tl ih =>
    by_cases hk2 : kv.1 = k2
    · rw [List.cons_append, dictGet_cons_eq kv _ k2 hk2,
        dictGet_cons_eq kv tl k2 hk2]
    · rw [List.cons_append, dictGet_cons_ne kv _ k2 hk2,
        dictGet_cons_ne kv tl k2 hk2]
      exact ih

theorem dictGet_dictSet_ne (d : KwDict) (k k2 : String) (v : PyVal)
    (h : k2 ≠ k) :
    dictGet (dictSet d k v) k2 = dictGet d k2 := by
  unfold dictSet
  by_cases hm : dictMem k d = true
  · rw [if_pos hm]
    exact dictGet_map_set_ne d k k2 v h
  · rw [if_neg hm]
    exact dictGet_append_single_ne d k k2 v h

/-! ### Theorems about `get`, slicing and `count` -/

/-- When the slug field is among the criteria and neither `limit` nor
`ordering` is, the defaulting step of `get` adds `ordering=-version` (for
version-carrying types) and `limit=1`. -/
theorem getApplyDefaults_mem (slug_field : String) (versioned : Bool)
    (kwargs : KwDict)
    (hm : dictMem slug_field kwargs = true)
    (hl : dictMem "limit" kwargs = false)
    (ho : dictMem "ordering" kwargs = false) :
    getApplyDefaults slug_field versioned kwargs =
      if versioned then
        dictSet (dictSet kwargs "ordering" (PyVal.pyStr "-version")) "limit" (PyVal.pyInt 1)
      else dictSet kwargs "limit" (PyVal.pyInt 1) := by
  unfold getApplyDefaults
  rw [if_pos hm]
  cases versioned with
  | false =>
    simp only [Bool.false_eq_true, if_false]
    rw [dictGet_none_of_not_mem kwargs "limit" hl]
    rfl
  | true =>
    simp only [if_true]
    rw [dictGet_none_of_not_mem kwargs "ordering" ho]
    simp only [Option.getD_none]
    rw [dictGet_dictSet_ne kwargs "ordering" "limit" _ (by decide),
      dictGet_none_of_not_mem kwargs "limit" hl]
    rfl

/-- C3 counterexample: `get(42)` on a version-carrying type (slug field
`slug`) builds the criteria `{id: 42}` with no `limit` and no `ordering` key —
the limit is not forced for a positional numeric id. -/
theorem C3_counterexample :
    ResolweQuery_get_kwargs "slug" true [PosArg.pInt 42] []
      = Except.ok [("id", PyVal.pyInt 42)]
    ∧ dictGet [("id", PyVal.pyInt 42)] "limit" = Option.none
    ∧ dictGet [("id", PyVal.pyInt 42)] "ordering" = Option.none :=
  ⟨rfl, rfl, rfl⟩

/-- C3 amended: `get` forces `limit=1` (and, for version-carrying types,
defaults `ordering` to `-version`) exactly when the criteria contain the
type's designated slug field — for a positional non-integer argument or for
keyword criteria naming the slug field; a positional integer becomes a bare
`{id: n}` filter and keyword criteria without the slug field pass through
unchanged. -/
theorem C3_get_defaults (slug_field : String) (versioned : Bool)
    (s : String) (n : Int) (kw kw2 : KwDict)
    (h1 : slug_field ≠ "ordering") (h2 : slug_field ≠ "limit")
    (h3 : slug_field ≠ "id")
    (hkw : dictMem slug_field kw = false)
    (hm2 : dictMem slug_field kw2 = true)
    (hl2 : dictMem "limit" kw2 = false)
    (ho2 : dictMem "ordering" kw2 = false) :
    dictGet (getKwResult slug_field versioned [PosArg.pStr s] []) slug_field
        = some (PyVal.pyStr s)
    ∧ dictGet (getKwResult slug_field versioned [PosArg.pStr s] []) "limit"
        = some (PyVal.pyInt 1)
    ∧ dictGet (getKwResult slug_field true [PosArg.pStr s] []) "ordering"
        = some (PyVal.pyStr "-version")
    ∧ dictGet (getKwResult slug_field false [PosArg.pStr s] []) "ordering"
        = Option.none
    ∧ getKwResult slug_field versioned [PosArg.pInt n] [] = [("id", PyVal.pyInt n)]
    ∧ getKwResult slug_field versioned [] kw = kw
    ∧ dictGet (getKwResult slug_field versioned [] kw2) "limit"
        = some (PyVal.pyInt 1)
    ∧ dictGet (getKwResult slug_field true [] kw2) "ordering"
        = some (PyVal.pyStr "-version")
    ∧ dictGet (getKwResult slug_field false [] kw2) "ordering"
        = Option.none := by
  have hsing : ∀ v : Bool, getKwResult slug_field v [PosArg.pStr s] []
      = getApplyDefaults slug_field v [(slug_field, PyVal.pyStr s)] := by
    intro v; rfl
  have hmem1 : dictMem slug_field [(slug_field, PyVal.pyStr s)] = true := by
    simp [dictMem]
  have hlim1 : dictMem "limit" [(slug_field, PyVal.pyStr s)] = false := by
    simp [dictMem]; exact fun he => h2 he
  have hord1 : dictMem "ordering" [(slug_field, PyVal.pyStr s)] = false := by
    simp [dictMem]; exact fun he => h1 he
  have hdef : ∀ v : Bool, getApplyDefaults slug_field v [(slug_field, PyVal.pyStr s)]
      = if v then
          dictSet (dictSet [(slug_field, PyVal.pyStr s)] "ordering" (PyVal.pyStr "-version"))
            "limit" (PyVal.pyInt 1)
        else dictSet [(slug_field, PyVal.pyStr s)] "limit" (PyVal.pyInt 1) :=
    fun v => getApplyDefaults_mem slug_field v _ hmem1 hlim1 hord1
  have hkwres : getKwResult slug_field versioned [] kw2
      = getApplyDefaults slug_field versioned kw2 := rfl
  have hdef2 : ∀ v : Bool, getApplyDefaults slug_field v kw2
      = if v then
          dictSet (dictSet kw2 "ordering" (PyVal.pyStr "-version")) "limit" (PyVal.pyInt 1)
        else dictSet kw2 "limit" (PyVal.pyInt 1) :=
    fun v => getApplyDefaults_mem slug_field v kw2 hm2 hl2 ho2
  refine ⟨?_, ?_, ?_, ?_, ?_, ?_, ?_, ?_, ?_⟩
  · rw [hsing versioned, hdef versioned]
    cases versioned with
    | false =>
      simp only [Bool.false_eq_true, if_false]
      rw [dictGet_dictSet_ne _ _ _ _ h2]
      exact dictGet_cons_eq _ _ _ rfl
    | true =>
      simp only [if_true]
      rw [dictGet_dictSet_ne _ _ _ _ h2, dictGet_dictSet_ne _ _ _ _ h1]
      exact dictGet_cons_eq _ _ _ rfl
  · rw [hsing versioned, hdef versioned]
    cases versioned with
    | false =>
      simp only [Bool.false_eq_true, if_false]
      exact dictGet_dictSet_self _ _ _
    | true =>
      simp only [if_true]
      exact dictGet_dictSet_self _ _ _
  · rw [hsing true, hdef true]
    simp only [if_true]
    rw [dictGet_dictSet_ne _ _ _ _ (by decide)]
    exact dictGet_dictSet_self _ _ _
  · rw [hsing false, hdef false]
    simp only [Bool.false_eq_true, if_false]
    rw [dictGet_dictSet_ne _ _ _ _ (by decide)]
    exact dictGet_none_of_not_mem _ _ hord1
  · have hid : getKwResult slug_field versioned [PosArg.pInt n] []
        = getApplyDefaults slug_field versioned [("id", PyVal.pyInt n)] := rfl
    rw [hid]
    unfold getApplyDefaults
    have hmem : dictMem slug_field [("id", PyVal.pyInt n)] = false := by
      simp [dictMem]; exact fun he => h3 he.symm
    rw [if_neg (by rw [hmem]; exact Bool.false_ne_true)]
  · show getApplyDefaults slug_field versioned kw = kw
    unfold getApplyDefaults
    rw [if_neg (by rw [hkw]; exact Bool.false_ne_true)]
  · rw [hkwres, hdef2 versioned]
    cases versioned with
    | false =>
      simp only [Bool.false_eq_true, if_false]
      exact dictGet_dictSet_self _ _ _
    | true =>
      simp only [if_true]
      exact dictGet_dictSet_self _ _ _
  · have hres : getKwResult slug_field true [] kw2
        = getApplyDefaults slug_field true kw2 := rfl
    rw [hres, hdef2 true]
    simp only [if_true]
    rw [dictGet_dictSet_ne _ _ _ _ (by decide)]
    exact dictGet_dictSet_self _ _ _
  · have hres : getKwResult slug_field false [] kw2
        = getApplyDefaults slug_field false kw2 := rfl
    rw [hres, hdef2 false]
    simp only [Bool.false_eq_true, if_false]
    rw [dictGet_dictSet_ne _ _ _ _ (by decide)]
    exact dictGet_none_of_not_mem _ _ ho2

/-- Witness for `C3_get_defaults`: the user endpoint (slug field `username`)
with a positional slug argument receives the slug filter with the forced
limit. -/
theorem C3_get_defaults_witness :
    dictGet (getKwResult "username" true [PosArg.pStr "abc"] []) "username"
        = some (PyVal.pyStr "abc")
    ∧ dictGet (getKwResult "username" true [PosArg.pStr "abc"] []) "limit"
        = some (PyVal.pyInt 1)
    ∧ getKwResult "username" true [PosArg.pInt 42] [] = [("id", PyVal.pyInt 42)] := by
  have h := C3_get_defaults "username" true "abc" 42
    [("name", PyVal.pyStr "x")] [("username", PyVal.pyStr "u")]
    (by decide) (by decide) (by decide) (by decide) (by decide) (by decide) (by decide)
  exact ⟨h.1, h.2.1, h.2.2.2.2.1⟩

/-- An optional bound that, when present, is non-negative (the shape of slice
bounds that survive the negativity check). -/
def nonnegOpt : Option Int → Bool
  | Option.none => true
  | some n => decide (0 ≤ n)

/-- C4 counterexample: a query that carries `limit = 1` and `offset = 0` but
whose cache is already populated answers the slice `[0:2]` from the cache — no
error is raised. -/
theorem C4_counterexample :
    ResolweQuery_getitem ([] : List Int)
      { limit := some 1, offset := some 0, cache := some [10, 20], countCache := some 5 }
      (PyIndex.slice (some 0) (some 2) Option.none)
      = (GetItemOut.several [10, 20], 0)
    ∧ (GetItemOut.several [10, 20] : GetItemOut Int)
        ≠ GetItemOut.err QueryErr.alreadySliced := by
  exact ⟨by decide, by decide⟩

/-- C4 amended: slicing raises the "cannot slice already sliced" error — with
zero requests issued — exactly on queries whose cache is not populated and
which already carry a nonzero (truthy) limit or offset; a populated cache
instead answers the slice directly from the cache, also without a request. -/
theorem C4_slice_of_sliced_raises {Item : Type} (db : List Item) (q : QueryS Item)
    (st sp : Option Int)
    (hcache : q.cache = Option.none)
    (hsliced : (truthyOptInt q.offset || truthyOptInt q.limit) = true)
    (hst : nonnegOpt st = true) (hsp : nonnegOpt sp = true) :
    ResolweQuery_getitem db q (PyIndex.slice st sp Option.none)
      = (GetItemOut.err QueryErr.alreadySliced, 0) := by
  unfold ResolweQuery_getitem
  rcases st with _ | a
  · rcases sp with _ | b
    · simp [hcache, hsliced]
    · have hb : ¬(b < 0) := by
        simp only [nonnegOpt, decide_eq_true_eq] at hsp; omega
      simp [hcache, hsliced, hb]
  · have ha : ¬(a < 0) := by
      simp only [nonnegOpt, decide_eq_true_eq] at hst; omega
    rcases sp with _ | b
    · simp [hcache, hsliced, ha]
    · have hb : ¬(b < 0) := by
        simp only [nonnegOpt, decide_eq_true_eq] at hsp; omega
      simp [hcache, hsliced, ha, hb]

/-- Witness for `C4_slice_of_sliced_raises`: an unexecuted query carrying
`limit = 1` rejects the slice `[0:2]` with zero requests. -/
theorem C4_slice_of_sliced_raises_witness :
    ResolweQuery_getitem ([] : List Int)
      { limit := some 1, offset := Option.none,
        cache := Option.none, countCache := Option.none }
      (PyIndex.slice (some 0) (some 2) Option.none)
      = (GetItemOut.err QueryErr.alreadySliced, 0) :=
  C4_slice_of_sliced_raises []
    { limit := some 1, offset := Option.none,
      cache := Option.none, countCache := Option.none }
    (some 0) (some 2) rfl (by decide) (by decide) (by decide)

/-- C5: for a query carrying limit `L` and offset `O` against a server whose
reported total for the query's filters is `T` (the length of the matching
collection, also any previously recorded `_count`), `count()` returns
`max(0, min(L, T - O))`; without a limit it returns `T`. -/
theorem C5_count_invariant {Item : Type} (db : List Item) (L O C : Int)
    (cacheState : Option (List Item)) (off : Option Int) :
    (ResolweQuery_count db
        { limit := some L, offset := some O,
          cache := Option.none, countCache := Option.none }).1
      = some (max 0 (min L (Int.ofNat db.length - O)))
    ∧ (ResolweQuery_count db
        { limit := Option.none, offset := off,
          cache := Option.none, countCache := Option.none }).1
      = some (Int.ofNat db.length)
    ∧ (ResolweQuery_count db
        { limit := some L, offset := some O,
          cache := cacheState, countCache := some C }).1
      = some (max 0 (min L (C - O)))
    ∧ (ResolweQuery_count db
        { limit := Option.none, offset := off,
          cache := cacheState, countCache := some C }).1
      = some C := by
  refine ⟨?_, ?_, ?_, ?_⟩ <;>
    simp [ResolweQuery_count, ResolweQuery_fetch, QueryS.clone, pageOf]

/-- C6: the claim says every query derived by `filter`, `all` or slicing keeps
filtering positional non-integer `get` arguments on the type's designated slug
field; but `_clone` rebuilds the query without passing `slug_field`, so every
derived query falls back to the literal default `slug` — the user endpoint
(designated slug field `username`) keeps `username` only on the original
query object. -/
theorem C6_clone_drops_slug_field :
    userQuery.slug_field = "username"
    ∧ (ResolweQuery_filter userQuery [("company", PyVal.pyStr "acme")]).slug_field
        = "slug"
    ∧ (ResolweQuery_all userQuery).slug_field = "slug"
    ∧ ResolweQuery_get_kwargs
        (ResolweQuery_filter userQuery [("company", PyVal.pyStr "acme")]).slug_field
        false [PosArg.pStr "john"] []
      = Except.ok [("slug", PyVal.pyStr "john"), ("limit", PyVal.pyInt 1)]
    ∧ ResolweQuery_get_kwargs userQuery.slug_field false [PosArg.pStr "john"] []
      = Except.ok [("username", PyVal.pyStr "john"), ("limit", PyVal.pyInt 1)] := by
  refine ⟨rfl, rfl, rfl, rfl, rfl⟩

/-! ### Query independence (object-identity model)

Python object identity is modelled by cell addresses in a heap: every
`ResolweQuery` object owns one filter-map cell (`_filters`) and one cache cell
(`_cache`); `copy.deepcopy` in `_clone` becomes allocation of a fresh address
holding an equal value, and in-place mutation becomes updating one cell. -/

/-- The heap of query-private mutable cells. -/
structure QueryHeap (Item : Type) where
  fcells : Nat → KwDict
  ccells : Nat → Option (List Item)
  nextF : Nat
  nextC : Nat

/-- A query object: the addresses of its two mutable cells plus its immutable
pagination integers. -/
structure QueryRef where
  fref : Nat
  cref : Nat
  limit : Option Int
  offset : Option Int
  deriving DecidableEq, Repr

/-- A reference is valid when its cells were allocated in the heap. -/
def QueryRef.wf {Item : Type} (h : QueryHeap Item) (q : QueryRef) : Prop :=
  q.fref < h.nextF ∧ q.cref < h.nextC

/-- query.py `ResolweQuery._clone` (lines 165-171): allocate a fresh filter
cell holding a deep copy of the parent's filter map and a fresh cache cell
holding nothing; limit and offset are copied by value. -/
def cloneH {Item : Type} (h : QueryHeap Item) (q : QueryRef) :
    QueryHeap Item × QueryRef :=
  ({ fcells := Function.update h.fcells h.nextF (h.fcells q.fref),
     ccells := Function.update h.ccells h.nextC Option.none,
     nextF := h.nextF + 1, nextC := h.nextC + 1 },
   { fref := h.nextF, cref := h.nextC, limit := q.limit, offset := q.offset })

/-- query.py `ResolweQuery.filter` (lines 333-337): clone, then `_add_filter`
merges the criteria into the clone's own filter cell. -/
def filterH {Item : Type} (h : QueryHeap Item) (q : QueryRef) (criteria : KwDict) :
    QueryHeap Item × QueryRef :=
  let hq := cloneH h q
  ({ hq.1 with
      fcells := Function.update hq.1.fcells hq.2.fref (hq.1.fcells hq.2.fref ++ criteria) },
   hq.2)

/-- query.py `ResolweQuery.all` (lines 357-363): a plain clone. -/
def allH {Item : Type} (h : QueryHeap Item) (q : QueryRef) :
    QueryHeap Item × QueryRef :=
  cloneH h q

/-- The lazy-slice branch of `__getitem__` (lines 130-140): a clone carrying
the new offset and limit. -/
def sliceH {Item : Type} (h : QueryHeap Item) (q : QueryRef) (start stop : Int) :
    QueryHeap Item × QueryRef :=
  let hq := cloneH h q
  (hq.1, { hq.2 with offset := some start, limit := some (stop - start) })

/-- The cache-populating mutation of `_fetch` (`self._cache = [...]`). -/
def setCacheH {Item : Type} (h : QueryHeap Item) (q : QueryRef)
    (results : List Item) : QueryHeap Item :=
  { h with ccells := Function.update h.ccells q.cref (some results) }

/-- query.py `clear_cache` (lines 259-262): `self._cache = None`. -/
def clearCacheH {Item : Type} (h : QueryHeap Item) (q : QueryRef) : QueryHeap Item :=
  { h with ccells := Function.update h.ccells q.cref Option.none }

/-- An in-place mutation of a query's filter dictionary. -/
def setFiltersH {Item : Type} (h : QueryHeap Item) (q : QueryRef) (f : KwDict) :
    QueryHeap Item :=
  { h with fcells := Function.update h.fcells q.fref f }

/-- The caller-observable state of one query object: its filter map, its
cache, its limit and its offset. -/
def observableH {Item : Type} (h : QueryHeap Item) (q : QueryRef) :
    KwDict × Option (List Item) × Option Int × Option Int :=
  (h.fcells q.fref, h.ccells q.cref, q.limit, q.offset)

/-- C9: `filter`, `all` and slicing return queries at fresh addresses whose
filter map is a deep copy; for `Q1 = Q.filter(crit)` and `Q2 = Q.filter(crit)`
built from the same parent, populating or clearing `Q1`'s cache, or mutating
`Q1`'s filter map, never changes the observable state of `Q2` or of `Q`, and
the two filter operations leave the parent's observable state intact. -/
theorem C9_filter_independent {Item : Type} (h : QueryHeap Item) (q : QueryRef)
    (crit : KwDict) (v : List Item) (f : KwDict)
    (h1 h2 : QueryHeap Item) (q1 q2 : QueryRef)
    (hwf : QueryRef.wf h q)
    (e1 : h1 = (filterH h q crit).1) (e2 : q1 = (filterH h q crit).2)
    (e3 : h2 = (filterH h1 q crit).1) (e4 : q2 = (filterH h1 q crit).2) :
    (q1.fref ≠ q.fref ∧ q1.cref ≠ q.cref
      ∧ q2.fref ≠ q1.fref ∧ q2.cref ≠ q1.cref
      ∧ q2.fref ≠ q.fref ∧ q2.cref ≠ q.cref)
    ∧ h2.fcells q1.fref = h.fcells q.fref ++ crit
    ∧ h2.fcells q2.fref = h.fcells q.fref ++ crit
    ∧ h2.ccells q1.cref = Option.none
    ∧ h2.ccells q2.cref = Option.none
    ∧ observableH h2 q = observableH h q
    ∧ observableH (setCacheH h2 q1 v) q2 = observableH h2 q2
    ∧ observableH (setCacheH h2 q1 v) q = observableH h2 q
    ∧ observableH (clearCacheH h2 q1) q2 = observableH h2 q2
    ∧ observableH (clearCacheH h2 q1) q = observableH h2 q
    ∧ observableH (setFiltersH h2 q1 f) q2 = observableH h2 q2
    ∧ observableH (setFiltersH h2 q1 f) q = observableH h2 q
    ∧ (allH h q).2.fref ≠ q.fref ∧ (allH h q).2.cref ≠ q.cref
    ∧ (allH h q).1.fcells (allH h q).2.fref = h.fcells q.fref
    ∧ (allH h q).1.ccells (allH h q).2.cref = Option.none
    ∧ (sliceH h q 2 5).2.fref ≠ q.fref ∧ (sliceH h q 2 5).2.cref ≠ q.cref := by
  obtain ⟨hwfF, hwfC⟩ := hwf
  have hne1 : q.fref ≠ h.nextF := Nat.ne_of_lt hwfF
  have hne2 : q.cref ≠ h.nextC := Nat.ne_of_lt hwfC
  have hne3 : q.fref ≠ h.nextF + 1 := by omega
  have hne4 : q.cref ≠ h.nextC + 1 := by omega
  have hne5 : h.nextF ≠ h.nextF + 1 := by omega
  have hne6 : h.nextC ≠ h.nextC + 1 := by omega
  subst e1 e2 e3 e4
  simp only [filterH, cloneH, allH, sliceH, observableH, setCacheH, clearCacheH,
    setFiltersH]
  refine ⟨⟨hne1.symm, hne2.symm, hne5.symm, hne6.symm, (Ne.symm hne3), (Ne.symm hne4)⟩,
    ?_, ?_, ?_, ?_, ?_, ?_, ?_, ?_, ?_, ?_, ?_, hne1.symm, hne2.symm, ?_, ?_,
    hne1.symm, hne2.symm⟩ <;>
    simp [Function.update_same, Function.update_noteq, hne1, hne2, hne3, hne4,
      hne5, hne6, Ne.symm hne5, Ne.symm hne6]

/-- A one-query heap used by the independence witness. -/
def heap0 : QueryHeap Int :=
  { fcells := fun _ => [], ccells := fun _ => Option.none, nextF := 1, nextC := 1 }

/-- The query at address 0 of `heap0`. -/
def qref0 : QueryRef :=
  { fref := 0, cref := 0, limit := Option.none, offset := Option.none }

/-- The criteria used by the independence witness. -/
def critW : KwDict := [("a", PyVal.pyInt 1)]

/-- Heap and reference after the first `filter` of the witness. -/
def heapW1 : QueryHeap Int := (filterH heap0 qref0 critW).1

def qrefW1 : QueryRef := (filterH heap0 qref0 critW).2

/-- Heap and reference after the second `filter` of the witness. -/
def heapW2 : QueryHeap Int := (filterH heapW1 qref0 critW).1

def qrefW2 : QueryRef := (filterH heapW1 qref0 critW).2

/-- Witness for `C9_filter_independent`: two concrete sibling filters of the
same parent live at distinct addresses and populating the first one's cache is
invisible to the second one and to the parent. -/
theorem C9_filter_independent_witness :
    qrefW1.fref ≠ qref0.fref
    ∧ heapW2.fcells qrefW1.fref = heap0.fcells qref0.fref ++ critW
    ∧ observableH (setCacheH heapW2 qrefW1 [7]) qrefW2 = observableH heapW2 qrefW2
    ∧ observableH (setCacheH heapW2 qrefW1 [7]) qref0 = observableH heapW2 qref0 := by
  have hh := C9_filter_independent heap0 qref0 critW [7] [("b", PyVal.pyInt 2)]
    heapW1 heapW2 qrefW1 qrefW2 ⟨by decide, by decide⟩ rfl rfl rfl rfl
  exact ⟨hh.1.1, hh.2.1, hh.2.2.2.2.2.2.1, hh.2.2.2.2.2.2.2.1⟩

/-! ### Annotation value hydration (`AnnotationValueQuery._fetch`) -/

/-- A materialized related entity (a `Sample` or an `AnnotationField`),
abstracted to its server id plus one payload attribute. -/
structure RelEnt where
  id : Int
  name : String
  deriving DecidableEq, Repr

/-- The current value held by a relation field of an annotation value: the
bare-id lazy loader that `DictResourceField.to_python` produces for an int
payload (a callable closing over the id), or a materialized entity. -/
inductive RelVal where
  | lazyId (n : Int)
  | ent (e : RelEnt)
  deriving DecidableEq, Repr

/-- The `_<name>_original` snapshot of a relation field: the deep-copied JSON
payload (a bare int id or a dict), or — after the hydration step under study —
the attached resource object itself. -/
inductive RelOrig where
  | rawId (n : Int)
  | jsonDict (d : List (String × PyVal))
  | res (e : RelEnt)
  deriving DecidableEq, Repr

/-- Modelled from the spec: the AnnotationValue resource class itself is not
among the sources under study (only its query class and the field machinery
are).  Per §3 and §4.4 a "value" entity carries two relation fields, `sample`
and `field`; each contributes the tri-state status, the current value and the
original snapshot stored under the `_sample` / `_sample_original` /
`_sample_status` attribute names produced by `BaseField.__set_name__`. -/
structure AnnValue where
  vid : Int
  sample_status : FieldStatus
  sample : RelVal
  sample_original : RelOrig
  field_status : FieldStatus
  field : RelVal
  field_original : RelOrig
  deriving DecidableEq, Repr

/-- The key under which `AnnotationValueQuery._fetch` indexes a deferred
relation: the `_original` attribute, which holds the bare server id for a LAZY
relation (fields.py `_set_server` deep-copies the raw JSON int). -/
def RelOrig.lazyKey : RelOrig → Option Int
  | RelOrig.rawId n => some n
  | _ => Option.none

/-- The distinct pending ids of one relation over the cached values whose
status is LAZY (the key set of the `missing_fields` / `missing_samples`
dictionaries). -/
def missingIds (status : AnnValue → FieldStatus) (orig : AnnValue → RelOrig)
    (cache : List AnnValue) : List Int :=
  ((cache.filter (fun v => status v = FieldStatus.LAZY)).filterMap
    (fun v => (orig v).lazyKey)).dedup

/-- One bulk `id__in` filter query: the related entities whose id is among the
requested ones. -/
def bulkByIds (db : List RelEnt) (ids : List Int) : List RelEnt :=
  db.filter (fun e => ids.contains e.id)

/-- Attach a returned related entity to a waiting value (query.py lines
456-459 and 467-470): `value._sample = sample; value._sample_original =
sample; value._sample_status = SET` — the original snapshot is pointed at the
resource object itself. -/
def hydrateSample (returned : List RelEnt) (v : AnnValue) : AnnValue :=
  if v.sample_status = FieldStatus.LAZY then
    match (v.sample_original).lazyKey with
    | some n =>
      (match returned.find? (fun e => e.id = n) with
       | some e =>
         { v with sample := RelVal.ent e, sample_original := RelOrig.res e,
                  sample_status := FieldStatus.SET }
       | Option.none => v)
    | Option.none => v
  else v

/-- The `field` analogue of `hydrateSample`. -/
def hydrateField (returned : List RelEnt) (v : AnnValue) : AnnValue :=
  if v.field_status = FieldStatus.LAZY then
    match (v.field_original).lazyKey with
    | some n =>
      (match returned.find? (fun e => e.id = n) with
       | some e =>
         { v with field := RelVal.ent e, field_original := RelOrig.res e,
                  field_status := FieldStatus.SET }
       | Option.none => v)
    | Option.none => v
  else v

/-- query.py `AnnotationValueQuery._fetch` (lines 434-470): after the base
fetch produced `baseCache`, the pending relation ids are grouped per relation
type; for each type with a nonempty id set one bulk `id__in` filter query is
issued (`fieldsDb` and `samplesDb` hold the server's annotation fields and
samples), and every returned entity is attached to each value waiting on its
id.  Returns the hydrated cache together with the number of bulk queries
issued for the field relation and for the sample relation. -/
def AnnotationValueQuery_fetch (fieldsDb samplesDb : List RelEnt)
    (baseCache : List AnnValue) : List AnnValue × Nat × Nat :=
  let missingF := missingIds (fun v => v.field_status) (fun v => v.field_original) baseCache
  let missingS := missingIds (fun v => v.sample_status) (fun v => v.sample_original) baseCache
  let fq := if missingF.isEmpty then 0 else 1
  let sq := if missingS.isEmpty then 0 else 1
  let returnedF := bulkByIds fieldsDb missingF
  let returnedS := bulkByIds samplesDb missingS
  let cache1 :=
    if missingF.isEmpty then baseCache else baseCache.map (hydrateField returnedF)
  let cache2 :=
    if missingS.isEmpty then cache1 else cache1.map (hydrateSample returnedS)
  (cache2, fq, sq)

/-- The `original_json.get(property)` step of `DictResourceField._compare` on a
relation original: only a dict has a `get` method — a bare int or a resource
object raises `AttributeError`. -/
def RelOrig.get (o : RelOrig) (property_name : String) : PyResult PyVal :=
  match o with
  | RelOrig.jsonDict d => PyResult.ok (jsonDictGet d property_name)
  | _ => PyResult.attributeError

/-- Python `getattr(current, "id")` on the current relation value: a materialized
entity exposes its id; the lazy callable has no id attribute. -/
def RelVal.getattr_id : RelVal → PyResult PyVal
  | RelVal.ent e => PyResult.ok (PyVal.pyInt e.id)
  | RelVal.lazyId _ => PyResult.attributeError

/-- The predicate `changed()` on a relation field of an annotation value fetched from the
server (id set, access writable): the status gate of `BaseField.changed`
followed by `DictResourceField._compare` on the stored original and the
current value, with `json_id` evaluated first as in the source. -/
def annRelationChanged (status : FieldStatus) (original : RelOrig)
    (current : RelVal) : PyResult Bool :=
  BaseField_changed
    (fun o c =>
      match RelOrig.get o "id", RelVal.getattr_id c with
      | PyResult.ok j, PyResult.ok p => PyResult.ok (decide (j = p))
      | PyResult.typeError, _ => PyResult.typeError
      | PyResult.attributeError, _ => PyResult.attributeError
      | _, PyResult.typeError => PyResult.typeError
      | _, PyResult.attributeError => PyResult.attributeError)
    FieldAccessType.WRITABLE status true original current

/-- A value whose sample relation arrived as the bare id 7 (LAZY) and whose
field relation arrived embedded (SET). -/
def lazyValue : AnnValue :=
  { vid := 1, sample_status := FieldStatus.LAZY, sample := RelVal.lazyId 7,
    sample_original := RelOrig.rawId 7, field_status := FieldStatus.SET,
    field := RelVal.ent { id := 2, name := "f2" },
    field_original := RelOrig.jsonDict [("id", PyVal.pyInt 2)] }

/-- A second value waiting on the same sample id 7. -/
def lazyValue2 : AnnValue :=
  { lazyValue with vid := 2 }

/-- The sample entity with id 7 as the server returns it. -/
def sample7 : RelEnt := { id := 7, name := "s7" }

/-- The value `lazyValue` after hydration: sample materialized, status SET, original
pointed at the resource object. -/
def hydrated1 : AnnValue :=
  { vid := 1, sample_status := FieldStatus.SET, sample := RelVal.ent sample7,
    sample_original := RelOrig.res sample7, field_status := FieldStatus.SET,
    field := RelVal.ent { id := 2, name := "f2" },
    field_original := RelOrig.jsonDict [("id", PyVal.pyInt 2)] }

/-- The value `lazyValue2` after hydration. -/
def hydrated2 : AnnValue :=
  { vid := 2, sample_status := FieldStatus.SET, sample := RelVal.ent sample7,
    sample_original := RelOrig.res sample7, field_status := FieldStatus.SET,
    field := RelVal.ent { id := 2, name := "f2" },
    field_original := RelOrig.jsonDict [("id", PyVal.pyInt 2)] }

/-- C10: the hydration pass does materialize every waiting value (status SET,
one bulk query per relation type even with several values waiting on the same
id) and does point the original snapshot at the attached entity — but
`changed()` on the hydrated field is not false as claimed: the original now
holds the resource object, whose missing `get` attribute makes
`DictResourceField._compare` raise, and even with the JSON-dict original kept,
the comparison `json_id == python_id` of that method reports an unmodified
relation as changed. -/
theorem C10_hydration_falsely_modified :
    AnnotationValueQuery_fetch [] [sample7] [lazyValue, lazyValue2]
      = ([hydrated1, hydrated2], 0, 1)
    ∧ annRelationChanged FieldStatus.SET (RelOrig.res sample7) (RelVal.ent sample7)
      = PyResult.attributeError
    ∧ annRelationChanged FieldStatus.SET (RelOrig.jsonDict [("id", PyVal.pyInt 7)])
        (RelVal.ent sample7)
      = PyResult.ok true
    ∧ PyResult.attributeError ≠ PyResult.ok false
    ∧ (PyResult.ok true : PyResult Bool) ≠ PyResult.ok false := by
  refine ⟨by decide, by decide, by decide, by decide, by decide⟩

end ResdkSpec
